import Mathlib

/-!
Verification of the bounding-box validation/deduplication pipeline and the
LLM-output reconciliation layer of the `objectIdentification` backend.

Sources embedded (shallowly) in this file:
* `backend/app/services/bbox_validator.py` — `BBoxValidator.validate_bbox`,
  `fix_bbox`, `pixels_to_percentage`, `validate_and_fix_objects`,
  `calculate_iou`, `remove_duplicates`.
* `backend/app/services/dspy_scene_analyzer.py` — `DSPySceneAnalyzer._validate_objects`.
* `backend/app/services/scene_analyzer.py` — `SceneAnalyzer._validate_and_enhance_data`.

Python floats are embedded as rationals (`ℚ`): every operation the embedded
code performs on the numbers that matter to the claims (comparison, `min`,
`max`, clamping, and the small-integer arithmetic of the test inputs) is
exact in binary floating point, so the rational model is faithful on them.
Python ints are embedded as `ℤ`.  Python code that can raise
(`ZeroDivisionError` in `pixels_to_percentage`) is embedded with `Option`,
`none` standing for the raised exception.
-/

/-- `app.models.BoundingBox` — percentage coordinates (`models.py`, lines 12-16). -/
@[ext]
structure BoundingBox where
  x : ℚ
  y : ℚ
  width : ℚ
  height : ℚ
deriving DecidableEq, Repr

/-- `app.models.DetectedObject` (`models.py`, lines 18-21). -/
structure DetectedObject where
  label : String
  confidence : ℚ
  bounding_box : BoundingBox
deriving DecidableEq, Repr

/-- `BBoxValidator.min_box_size` (`bbox_validator.py`, line 21). -/
def min_box_size : ℚ := 0.5

/-- `BBoxValidator.validate_bbox` (`bbox_validator.py`, lines 24-55).
Returns `(is_valid, error_message)`; the first failing check wins. -/
def validate_bbox (bbox : BoundingBox) : Bool × Option String :=
  if bbox.x < 0 ∨ bbox.x > 100 then
    (false, some ("X coordinate " ++ toString bbox.x ++ " out of range (0-100)"))
  else if bbox.y < 0 ∨ bbox.y > 100 then
    (false, some ("Y coordinate " ++ toString bbox.y ++ " out of range (0-100)"))
  else if bbox.width ≤ 0 ∨ bbox.width > 100 then
    (false, some ("Width " ++ toString bbox.width ++ " invalid (must be > 0 and <= 100)"))
  else if bbox.height ≤ 0 ∨ bbox.height > 100 then
    (false, some ("Height " ++ toString bbox.height ++ " invalid (must be > 0 and <= 100)"))
  else if bbox.x + bbox.width > 100 then
    (false, some ("Box extends beyond right edge (x+width=" ++ toString (bbox.x + bbox.width) ++ ")"))
  else if bbox.y + bbox.height > 100 then
    (false, some ("Box extends beyond bottom edge (y+height=" ++ toString (bbox.y + bbox.height) ++ ")"))
  else if bbox.width < min_box_size ∨ bbox.height < min_box_size then
    (false, some ("Box too small (min size is " ++ toString min_box_size ++ "%)"))
  else
    (true, none)

/-- `BBoxValidator.fix_bbox` (`bbox_validator.py`, lines 57-83): clamp the
corner into `[0,100]`, then clamp width/height into
`[min_box_size, 100 - corner]`. -/
def fix_bbox (bbox : BoundingBox) : BoundingBox :=
  let fixed_x := max 0 (min 100 bbox.x)
  let fixed_y := max 0 (min 100 bbox.y)
  let max_width := 100 - fixed_x
  let max_height := 100 - fixed_y
  { x := fixed_x
    y := fixed_y
    width := max min_box_size (min bbox.width max_width)
    height := max min_box_size (min bbox.height max_height) }

lemma fix_bbox_x (b : BoundingBox) : (fix_bbox b).x = max 0 (min 100 b.x) := rfl

lemma fix_bbox_y (b : BoundingBox) : (fix_bbox b).y = max 0 (min 100 b.y) := rfl

lemma fix_bbox_width (b : BoundingBox) :
    (fix_bbox b).width = max min_box_size (min b.width (100 - max 0 (min 100 b.x))) := rfl

lemma fix_bbox_height (b : BoundingBox) :
    (fix_bbox b).height = max min_box_size (min b.height (100 - max 0 (min 100 b.y))) := rfl

/-- `max lo (min hi v)` clamped a second time is unchanged (`0 ≤ lo ≤ hi`). -/
lemma clamp_clamp (lo hi v : ℚ) (h : lo ≤ hi) :
    max lo (min hi (max lo (min hi v))) = max lo (min hi v) := by
  rcases le_total v hi with h1 | h1 <;> rcases le_total lo v with h2 | h2 <;>
    simp [min_def, max_def] <;> split_ifs <;> linarith

/-- Re-clamping a width of the form `max m (min w c)` into `[m, c]` is the
identity (the shape produced, and re-consumed, by `fix_bbox`). -/
lemma clamp_size_idem (m w c : ℚ) :
    max m (min (max m (min w c)) c) = max m (min w c) := by
  rcases le_total c m with h | h <;> rcases le_total w c with h2 | h2 <;>
    simp [min_def, max_def] <;> split_ifs <;> linarith

/-- C4: `fix_bbox` is idempotent: applying the repair twice gives the same box
in all four fields. (`repair(repair(b)) == repair(b)`.) -/
theorem C4_fix_bbox_idempotent (b : BoundingBox) : fix_bbox (fix_bbox b) = fix_bbox b := by
  have hx : (fix_bbox (fix_bbox b)).x = (fix_bbox b).x := by
    rw [fix_bbox_x (fix_bbox b), fix_bbox_x b]
    exact clamp_clamp 0 100 b.x (by norm_num)
  have hy : (fix_bbox (fix_bbox b)).y = (fix_bbox b).y := by
    rw [fix_bbox_y (fix_bbox b), fix_bbox_y b]
    exact clamp_clamp 0 100 b.y (by norm_num)
  have hw : (fix_bbox (fix_bbox b)).width = (fix_bbox b).width := by
    rw [fix_bbox_width (fix_bbox b), fix_bbox_x b, fix_bbox_width b]
    rw [clamp_clamp 0 100 b.x (by norm_num)]
    exact clamp_size_idem min_box_size b.width (100 - max 0 (min 100 b.x))
  have hh : (fix_bbox (fix_bbox b)).height = (fix_bbox b).height := by
    rw [fix_bbox_height (fix_bbox b), fix_bbox_y b, fix_bbox_height b]
    rw [clamp_clamp 0 100 b.y (by norm_num)]
    exact clamp_size_idem min_box_size b.height (100 - max 0 (min 100 b.y))
  exact BoundingBox.ext hx hy hw hh

/-- C1 counterexample: the box `{x:100, y:0, width:50, height:50}` is repaired
to `{x:100, y:0, width:0.5, height:50}`, which still fails validation
(`x + width = 100.5 > 100`), so not every repaired box validates. -/
theorem C1_counterexample :
    validate_bbox (fix_bbox ⟨100, 0, 50, 50⟩) ≠ (true, none) := by
  have hfix : fix_bbox ⟨100, 0, 50, 50⟩ = ⟨100, 0, 0.5, 50⟩ := by
    simp only [fix_bbox, min_box_size]
    norm_num [min_def, max_def, BoundingBox.mk.injEq]
  rw [hfix]
  norm_num [validate_bbox, min_box_size]

/-- C1 (amended): whenever `b.x ≤ 99.5` and `b.y ≤ 99.5` — i.e. whenever
clamping the corner leaves at least `min_box_size` of room — the repaired box
passes all seven validation checks: `validate_bbox (fix_bbox b) = (true, none)`. -/
theorem C1_fix_validates (b : BoundingBox) (hx : b.x ≤ 99.5) (hy : b.y ≤ 99.5) :
    validate_bbox (fix_bbox b) = (true, none) := by
  have hX0 : (0:ℚ) ≤ (fix_bbox b).x := by rw [fix_bbox_x]; exact le_max_left _ _
  have hX1 : (fix_bbox b).x ≤ 99.5 := by
    rw [fix_bbox_x]
    exact max_le (by norm_num) (le_trans (min_le_right _ _) hx)
  have hY0 : (0:ℚ) ≤ (fix_bbox b).y := by rw [fix_bbox_y]; exact le_max_left _ _
  have hY1 : (fix_bbox b).y ≤ 99.5 := by
    rw [fix_bbox_y]
    exact max_le (by norm_num) (le_trans (min_le_right _ _) hy)
  have hmbs : min_box_size = 0.5 := rfl
  have hW0 : min_box_size ≤ (fix_bbox b).width := by rw [fix_bbox_width]; exact le_max_left _ _
  have hW1 : (fix_bbox b).width ≤ 100 - (fix_bbox b).x := by
    rw [fix_bbox_width, fix_bbox_x]
    refine max_le ?_ (min_le_right _ _)
    have : max 0 (min 100 b.x) ≤ 99.5 := by
      exact max_le (by norm_num) (le_trans (min_le_right _ _) hx)
    rw [hmbs]; linarith
  have hH0 : min_box_size ≤ (fix_bbox b).height := by rw [fix_bbox_height]; exact le_max_left _ _
  have hH1 : (fix_bbox b).height ≤ 100 - (fix_bbox b).y := by
    rw [fix_bbox_height, fix_bbox_y]
    refine max_le ?_ (min_le_right _ _)
    have : max 0 (min 100 b.y) ≤ 99.5 := by
      exact max_le (by norm_num) (le_trans (min_le_right _ _) hy)
    rw [hmbs]; linarith
  rw [hmbs] at hW0 hH0
  unfold validate_bbox
  split_ifs with h1 h2 h3 h4 h5 h6 h7
  · rcases h1 with h | h <;> linarith
  · rcases h2 with h | h <;> linarith
  · rcases h3 with h | h <;> linarith
  · rcases h4 with h | h <;> linarith
  · linarith
  · linarith
  · rw [hmbs] at h7; rcases h7 with h | h <;> linarith
  · rfl

/-- C1 witness: the amended theorem applied at the concrete out-of-bounds box
`{x:-10, y:98, width:200, height:0.3}`. -/
theorem C1_fix_validates_witness :
    (-10 : ℚ) ≤ 99.5 ∧ (98 : ℚ) ≤ 99.5 ∧
      validate_bbox (fix_bbox ⟨-10, 98, 200, 0.3⟩) = (true, none) :=
  ⟨by norm_num, by norm_num,
    C1_fix_validates ⟨-10, 98, 200, 0.3⟩ (by norm_num) (by norm_num)⟩

/-- `BBoxValidator.pixels_to_percentage` (`bbox_validator.py`, lines 109-130).
The Python body divides by `img_width` and `img_height` with no guard, so a
zero dimension raises `ZeroDivisionError`; the raised exception is embedded as
`none`. -/
def pixels_to_percentage (x1 y1 x2 y2 img_width img_height : ℤ) : Option BoundingBox :=
  if img_width = 0 ∨ img_height = 0 then none
  else some
    { x := (x1 : ℚ) / (img_width : ℚ) * 100
      y := (y1 : ℚ) / (img_height : ℚ) * 100
      width := ((x2 : ℚ) - (x1 : ℚ)) / (img_width : ℚ) * 100
      height := ((y2 : ℚ) - (y1 : ℚ)) / (img_height : ℚ) * 100 }

/-- C3 counterexample: with `img_width = 0` the conversion raises
(embedded: returns `none`) instead of returning the zero-valued box the claim
promises. -/
theorem C3_counterexample :
    pixels_to_percentage 10 10 20 20 0 100 = none ∧
      pixels_to_percentage 10 10 20 20 0 100 ≠ some ⟨0, 0, 0, 0⟩ := by
  constructor
  · simp [pixels_to_percentage]
  · simp [pixels_to_percentage]

/-- C3 (amended): for every pixel-coordinate input, `pixels_to_percentage`
with `img_width = 0` or `img_height = 0` raises `ZeroDivisionError`
(embedded: returns `none`); it does not return a zero-valued box. -/
theorem C3_zero_dims_raise (x1 y1 x2 y2 img_width img_height : ℤ)
    (h : img_width = 0 ∨ img_height = 0) :
    pixels_to_percentage x1 y1 x2 y2 img_width img_height = none := by
  simp only [pixels_to_percentage, if_pos h]

/-- C3 witness: the amended theorem applied at a concrete zero-width input. -/
theorem C3_zero_dims_raise_witness :
    ((0 : ℤ) = 0 ∨ (100 : ℤ) = 0) ∧ pixels_to_percentage 1 2 3 4 0 100 = none :=
  ⟨Or.inl rfl, C3_zero_dims_raise 1 2 3 4 0 100 (Or.inl rfl)⟩

/-- `BBoxValidator.validate_and_fix_objects` (`bbox_validator.py`,
lines 132-157), written as the structurally equivalent recursion over the
object list: a valid box passes through untouched; an invalid box is replaced
by `fix_bbox` and two warnings are appended (the validation error and the
"attempted to fix" note). -/
def validate_and_fix_objects : List DetectedObject → List DetectedObject × List String
  | [] => ([], [])
  | obj :: rest =>
      let r := validate_bbox obj.bounding_box
      let tail := validate_and_fix_objects rest
      if r.1 then (obj :: tail.1, tail.2)
      else
        ({ obj with bounding_box := fix_bbox obj.bounding_box } :: tail.1,
          (obj.label ++ ": " ++ r.2.getD "None")
            :: (obj.label ++ ": Attempted to fix bounding box") :: tail.2)

/-- C9: `validate_and_fix_objects` drops nothing: its object list is exactly
the input list mapped in order through "keep if valid, else repair with
`fix_bbox`" (so labels and confidences are untouched and the length and order
are preserved), and it records exactly two warning strings per invalid box. -/
theorem C9_validate_and_fix_shape (L : List DetectedObject) :
    (validate_and_fix_objects L).1 =
      L.map (fun o =>
        if (validate_bbox o.bounding_box).1 = true then o
        else { o with bounding_box := fix_bbox o.bounding_box }) ∧
    (validate_and_fix_objects L).2.length =
      2 * L.countP (fun o => !(validate_bbox o.bounding_box).1) ∧
    (validate_and_fix_objects L).1.map (fun o => (o.label, o.confidence)) =
      L.map (fun o => (o.label, o.confidence)) := by
  have main : (validate_and_fix_objects L).1 =
      L.map (fun o =>
        if (validate_bbox o.bounding_box).1 = true then o
        else { o with bounding_box := fix_bbox o.bounding_box }) ∧
      (validate_and_fix_objects L).2.length =
        2 * L.countP (fun o => !(validate_bbox o.bounding_box).1) := by
    induction L with
    | nil => exact ⟨rfl, rfl⟩
    | cons o rest ih =>
        obtain ⟨ih1, ih2⟩ := ih
        by_cases hv : (validate_bbox o.bounding_box).1 = true
        · constructor
          · simp [validate_and_fix_objects, hv, ih1]
          · simp [validate_and_fix_objects, hv, List.countP_cons, ih2]
        · have hv' : (validate_bbox o.bounding_box).1 = false := by simpa using hv
          constructor
          · simp [validate_and_fix_objects, hv', ih1]
          · simp [validate_and_fix_objects, hv', List.countP_cons, ih2]
            ring
  refine ⟨main.1, main.2, ?_⟩
  rw [main.1, List.map_map]
  refine List.map_congr_left ?_
  intro o _
  by_cases hv : (validate_bbox o.bounding_box).1 = true <;> simp [hv]

/-- `BBoxValidator.calculate_iou` (`bbox_validator.py`, lines 159-185):
intersection rectangle via `max` of left/top and `min` of right/bottom; `0`
when the rectangle is inverted; otherwise `intersection / union`, with a
guard returning `0` when the union area is not positive. -/
def calculate_iou (bbox1 bbox2 : BoundingBox) : ℚ :=
  if min (bbox1.x + bbox1.width) (bbox2.x + bbox2.width) < max bbox1.x bbox2.x ∨
      min (bbox1.y + bbox1.height) (bbox2.y + bbox2.height) < max bbox1.y bbox2.y then 0
  else
    let intersection_area :=
      (min (bbox1.x + bbox1.width) (bbox2.x + bbox2.width) - max bbox1.x bbox2.x) *
        (min (bbox1.y + bbox1.height) (bbox2.y + bbox2.height) - max bbox1.y bbox2.y)
    let union_area :=
      bbox1.width * bbox1.height + bbox2.width * bbox2.height - intersection_area
    if union_area > 0 then intersection_area / union_area else 0

lemma calculate_iou_comm (b1 b2 : BoundingBox) :
    calculate_iou b1 b2 = calculate_iou b2 b1 := by
  simp only [calculate_iou]
  rw [min_comm (b1.x + b1.width), min_comm (b1.y + b1.height), max_comm b1.x, max_comm b1.y,
    add_comm (b1.width * b1.height)]

/-- The sort key of `remove_duplicates`: Python's
`sorted(objects, key=lambda x: x.confidence, reverse=True)` is a stable sort
placing higher confidence first; a stable insertion sort under this relation
produces the same list. -/
def confOrder (a b : DetectedObject) : Prop := b.confidence ≤ a.confidence

instance : DecidableRel confOrder :=
  fun a b => (inferInstance : Decidable (b.confidence ≤ a.confidence))

instance : IsTotal DetectedObject confOrder :=
  ⟨fun a b => le_total b.confidence a.confidence⟩

instance : IsTrans DetectedObject confOrder :=
  ⟨fun _ _ _ h1 h2 => le_trans h2 h1⟩

/-- The greedy suppression loop of `BBoxValidator.remove_duplicates`
(`bbox_validator.py`, lines 207-220): scan the confidence-sorted list, keep an
object unless its IoU with an already kept object exceeds the threshold. -/
def nmsLoop (t : ℚ) : List DetectedObject → List DetectedObject → List DetectedObject
  | keep, [] => keep
  | keep, obj :: rest =>
      if keep.any (fun k => decide (t < calculate_iou obj.bounding_box k.bounding_box)) then
        nmsLoop t keep rest
      else
        nmsLoop t (keep ++ [obj]) rest

/-- `BBoxValidator.remove_duplicates` (`bbox_validator.py`, lines 187-220);
the Python default threshold is `0.7`. -/
def remove_duplicates (objects : List DetectedObject) (iou_threshold : ℚ) :
    List DetectedObject :=
  if objects.isEmpty then []
  else nmsLoop iou_threshold [] (List.insertionSort confOrder objects)

lemma nmsLoop_length (t : ℚ) :
    ∀ (l keep : List DetectedObject), (nmsLoop t keep l).length ≤ keep.length + l.length := by
  intro l
  induction l with
  | nil => intro keep; simp [nmsLoop]
  | cons o rest ih =>
      intro keep
      simp only [nmsLoop]
      split_ifs
      · have := ih keep
        simp only [List.length_cons]
        omega
      · have := ih (keep ++ [o])
        simp only [List.length_append, List.length_cons, List.length_nil] at this
        simp only [List.length_cons]
        omega

lemma nmsLoop_append (t : ℚ) :
    ∀ (l keep : List DetectedObject), ∃ r, nmsLoop t keep l = keep ++ r := by
  intro l
  induction l with
  | nil => intro keep; exact ⟨[], by simp [nmsLoop]⟩
  | cons o rest ih =>
      intro keep
      simp only [nmsLoop]
      split_ifs
      · exact ih keep
      · obtain ⟨r, hr⟩ := ih (keep ++ [o])
        exact ⟨o :: r, by rw [hr, List.append_assoc]; rfl⟩

lemma nmsLoop_pairwise (t : ℚ) :
    ∀ (l keep : List DetectedObject),
      keep.Pairwise (fun a b => calculate_iou a.bounding_box b.bounding_box ≤ t) →
      (nmsLoop t keep l).Pairwise
        (fun a b => calculate_iou a.bounding_box b.bounding_box ≤ t) := by
  intro l
  induction l with
  | nil => intro keep hk; simpa [nmsLoop] using hk
  | cons o rest ih =>
      intro keep hk
      simp only [nmsLoop]
      split_ifs with h
      · exact ih keep hk
      · refine ih (keep ++ [o]) ?_
        rw [List.pairwise_append]
        refine ⟨hk, by simp, ?_⟩
        intro a ha b hb
        simp only [List.mem_singleton] at hb
        rw [hb]
        have h' : ¬ (t < calculate_iou o.bounding_box a.bounding_box) := by
          intro hlt
          exact h (List.any_eq_true.2 ⟨a, ha, decide_eq_true hlt⟩)
        rw [calculate_iou_comm]
        exact le_of_not_lt h'

/-- Concrete detections used in the C2 counterexample: `dupA`/`dupB` overlap
with IoU exactly `0.7`; `chainA`-`chainB`-`chainC` form a chain in which
`chainB` duplicates both neighbours but `chainA` and `chainC` do not overlap. -/
def dupA : DetectedObject := ⟨"a", 0.9, ⟨0, 0, 70, 10⟩⟩

def dupB : DetectedObject := ⟨"b", 0.8, ⟨0, 0, 100, 10⟩⟩

def chainA : DetectedObject := ⟨"a", 0.9, ⟨0, 0, 40, 100⟩⟩

def chainB : DetectedObject := ⟨"b", 0.8, ⟨20, 0, 40, 100⟩⟩

def chainC : DetectedObject := ⟨"c", 0.7, ⟨40, 0, 40, 100⟩⟩

/-- C2 counterexample: (i) `dupA` and `dupB` have IoU exactly `0.7`, and with
threshold `0.7` both survive `remove_duplicates` — so the result can contain a
distinct pair whose IoU is *not* strictly below the threshold (the code only
suppresses on `iou > threshold`); (ii) in the chain `A`-`B`-`C`, `B` and `C`
are mutual duplicates (IoU `1/3 > 0.3`) yet `B`, the highest-confidence member
of that duplicate group, is removed while `C` survives. -/
theorem C2_counterexample :
    (remove_duplicates [dupA, dupB] (7/10) = [dupA, dupB] ∧
      calculate_iou dupA.bounding_box dupB.bounding_box = 7/10) ∧
    (remove_duplicates [chainA, chainB, chainC] (3/10) = [chainA, chainC] ∧
      (3/10 : ℚ) < calculate_iou chainB.bounding_box chainC.bounding_box) := by
  refine ⟨⟨?_, ?_⟩, ?_, ?_⟩
  · norm_num [remove_duplicates, List.insertionSort, List.orderedInsert, confOrder, nmsLoop,
      calculate_iou, min_def, max_def, dupA, dupB]
  · norm_num [calculate_iou, min_def, max_def, dupA, dupB]
  · norm_num [remove_duplicates, List.insertionSort, List.orderedInsert, confOrder, nmsLoop,
      calculate_iou, min_def, max_def, chainA, chainB, chainC]
  · norm_num [calculate_iou, min_def, max_def, chainB, chainC]

/-- C2 (amended): for every detection list `L` and threshold `t`,
`remove_duplicates L t` (i) is no longer than `L`, (ii) contains no pair of
elements whose IoU *exceeds* `t` (pairs at exactly `t` may both survive, since
the code suppresses only on `iou > threshold`), and (iii) whenever `L` is
non-empty, retains a detection of maximal confidence over the whole input (the
first element of the stable confidence-descending sort). -/
theorem C2_dedupe (L : List DetectedObject) (t : ℚ) :
    (remove_duplicates L t).length ≤ L.length ∧
    (remove_duplicates L t).Pairwise
      (fun a b => calculate_iou a.bounding_box b.bounding_box ≤ t) ∧
    (L ≠ [] → ∃ o ∈ remove_duplicates L t, ∀ o' ∈ L, o'.confidence ≤ o.confidence) := by
  by_cases hL : L.isEmpty
  · rw [List.isEmpty_iff] at hL
    subst hL
    refine ⟨by simp [remove_duplicates], by simp [remove_duplicates], by simp⟩
  · have hrw : remove_duplicates L t = nmsLoop t [] (List.insertionSort confOrder L) := by
      simp [remove_duplicates, hL]
    have hperm : List.Perm (List.insertionSort confOrder L) L :=
      List.perm_insertionSort confOrder L
    refine ⟨?_, ?_, ?_⟩
    · rw [hrw]
      have := nmsLoop_length t (List.insertionSort confOrder L) []
      simp only [List.length_nil, Nat.zero_add] at this
      calc (nmsLoop t [] (List.insertionSort confOrder L)).length
          ≤ (List.insertionSort confOrder L).length := this
        _ = L.length := hperm.length_eq
    · rw [hrw]
      exact nmsLoop_pairwise t (List.insertionSort confOrder L) [] List.Pairwise.nil
    · intro hne
      have hslen : List.insertionSort confOrder L ≠ [] := by
        intro hnil
        have := hperm.length_eq
        rw [hnil] at this
        exact hne (List.length_eq_zero.1 this.symm)
      obtain ⟨hd, tl, hcons⟩ := List.exists_cons_of_ne_nil hslen
      have hsorted : List.Sorted confOrder (List.insertionSort confOrder L) :=
        List.sorted_insertionSort confOrder L
      refine ⟨hd, ?_, ?_⟩
      · rw [hrw, hcons]
        simp only [nmsLoop, List.any_nil, Bool.false_eq_true, if_false]
        obtain ⟨r, hr⟩ := nmsLoop_append t tl ([] ++ [hd])
        rw [hr]
        simp
      · intro o' ho'
        have ho'' : o' ∈ List.insertionSort confOrder L := hperm.mem_iff.2 ho'
        rw [hcons] at ho'' hsorted
        rcases List.mem_cons.1 ho'' with h | h
        · rw [h]
        · exact (List.sorted_cons.1 hsorted).1 o' h

/-- C2 witness: the amended theorem applied at the concrete singleton input
`[dupA]` with threshold `0.7`, discharging the non-emptiness hypothesis. -/
theorem C2_dedupe_witness :
    ([dupA] ≠ []) ∧
      (∃ o ∈ remove_duplicates [dupA] (7/10), ∀ o' ∈ [dupA], o'.confidence ≤ o.confidence) :=
  ⟨by simp, (C2_dedupe [dupA] (7/10)).2.2 (by simp)⟩

/-! String machinery for the scene-analysis services.  Python strings are
embedded as `List Char` where character-level work is needed; `lower()` is
per-character ASCII lowering, `in` is substring containment, `split()` splits
on whitespace runs, and `replace(sub, "")` removes non-overlapping occurrences
left to right. -/

/-- Python `lower()` (per-character; all data reaching these services is ASCII). -/
def toLowerL (l : List Char) : List Char := l.map Char.toLower

/-- Does `l` start with `sub`?  (Helper for substring search and
`startswith`.) -/
def isSubAt : List Char → List Char → Bool
  | [], _ => true
  | _ :: _, [] => false
  | c :: cs, d :: ds => c = d && isSubAt cs ds

/-- Python `sub in l`: `sub` occurs contiguously in `l`. -/
def hasSub (sub : List Char) : List Char → Bool
  | [] => sub.isEmpty
  | l@(_ :: t) => isSubAt sub l || hasSub sub t

/-- Python `l.endswith(suf)`. -/
def endsWithL (suf l : List Char) : Bool :=
  decide (l.drop (l.length - suf.length) = suf)

/-- Python `replace(sub, "")`, scanning left to right and removing
non-overlapping occurrences.  Written with a fuel argument (initialised to the
length of the string) so the recursion is structural; one character is always
consumed per step, so the fuel never runs out. -/
def removeSubAux (sub : List Char) : Nat → List Char → List Char
  | _, [] => []
  | 0, l => l
  | fuel + 1, c :: t =>
      if sub ≠ [] ∧ isSubAt sub (c :: t) = true then
        removeSubAux sub fuel (t.drop (sub.length - 1))
      else c :: removeSubAux sub fuel t

/-- Python `l.replace(sub, "")`. -/
def removeSub (sub l : List Char) : List Char := removeSubAux sub l.length l

/-- Accumulator for `splitWords`. -/
def splitWordsAux : List Char → List Char → List (List Char)
  | [], acc => if acc.isEmpty then [] else [acc.reverse]
  | c :: t, acc =>
      if c.isWhitespace then
        if acc.isEmpty then splitWordsAux t [] else acc.reverse :: splitWordsAux t []
      else splitWordsAux t (c :: acc)

/-- Python `split()` with no argument: split on whitespace runs, dropping
empty pieces. -/
def splitWords (l : List Char) : List (List Char) := splitWordsAux l []

/-- Scene tags treated as indoor (`dspy_scene_analyzer.py`, line 196). -/
def indoor_scenes : List String :=
  ["indoor_office", "indoor_residential", "indoor_commercial", "indoor_industrial"]

/-- Categories rejected for indoor scenes (`dspy_scene_analyzer.py`, line 197). -/
def outdoor_objects : List String :=
  ["Power Infrastructure", "Water Bodies", "Agricultural", "Land Features"]

/-- Keywords rejected for indoor scenes (`dspy_scene_analyzer.py`, line 198). -/
def outdoor_keywords : List String :=
  ["power line", "substation", "road", "asphalt", "tree", "vegetation", "pylon"]

/-- Outdoor scene tags (`dspy_scene_analyzer.py`, lines 201-202; declared by
the Python function but not used by its logic). -/
def outdoor_scenes : List String :=
  ["land_property", "construction_site", "infrastructure", "parking_area",
    "agricultural_land", "vacant_land", "industrial_facility", "power_station"]

/-- A record of the `_validate_objects` pipeline (the five-key dicts produced
by the `ObjectDetector` signature, `dspy_scene_analyzer.py`, lines 21-27). -/
structure ObjRecord where
  category : String
  object : String
  details : String
  position : String
  estimated_cost : String
deriving DecidableEq, Repr

/-- The fallback record returned when every input record is dropped
(`dspy_scene_analyzer.py`, lines 236-242). -/
def fallbackRecord : ObjRecord :=
  { category := "General"
    object := "Scene Analysis"
    details := "No valid objects detected - scene may be minimal or validation too strict"
    position := "—"
    estimated_cost := "—" }

/-- The outdoor-keyword test of `_validate_objects` (`dspy_scene_analyzer.py`,
line 220): some keyword occurs in the lowercased object name or details. -/
def outdoorKeywordHit (obj : ObjRecord) : Bool :=
  outdoor_keywords.any fun kw =>
    hasSub kw.data (toLowerL obj.object.data) || hasSub kw.data (toLowerL obj.details.data)

/-- The significant words of the grounding check (`dspy_scene_analyzer.py`,
lines 225-226): strip `"1 "`, `"2 "`, `"3 "` from the lowercased object name,
split into words, and keep only words longer than 3 characters. -/
def groundingWords (object_name_lower : List Char) : List (List Char) :=
  (splitWords (removeSub "3 ".data (removeSub "2 ".data
    (removeSub "1 ".data object_name_lower)))).filter fun w => 3 < w.length

/-- One loop iteration of `DSPySceneAnalyzer._validate_objects`
(`dspy_scene_analyzer.py`, lines 207-234) as a keep/drop predicate: indoor
scenes drop outdoor categories, then outdoor keywords; then the grounding
check drops records none of whose first two significant words occur in the
description — records with no significant word skip the grounding check. -/
def keepRecord (obj : ObjRecord) (scene_type : String) (image_desc_lower : List Char) : Bool :=
  if scene_type ∈ indoor_scenes ∧ obj.category ∈ outdoor_objects then false
  else if scene_type ∈ indoor_scenes ∧ outdoorKeywordHit obj = true then false
  else
    let obj_words := groundingWords (toLowerL obj.object.data)
    if obj_words ≠ [] ∧ ((obj_words.take 2).any fun w => hasSub w image_desc_lower) = false then
      false
    else true

/-- `DSPySceneAnalyzer._validate_objects` (`dspy_scene_analyzer.py`,
lines 190-242): filter the records through `keepRecord` against the lowercased
image description; if everything is dropped, return the single fallback
record. -/
def validateObjects (objects_data : List ObjRecord) (scene_type : String)
    (image_description : String) : List ObjRecord :=
  let validated :=
    objects_data.filter fun obj => keepRecord obj scene_type (toLowerL image_description.data)
  if validated.isEmpty then [fallbackRecord] else validated

/-- C5: for an indoor scene tag, no record returned by `_validate_objects` has
a category in the outdoor-only set (the indoor branch drops them, and the
fallback record's category is `"General"`). -/
theorem C5_indoor_excludes_outdoor (l : List ObjRecord) (s d : String)
    (hs : s ∈ indoor_scenes) :
    ∀ r ∈ validateObjects l s d, r.category ∉ outdoor_objects := by
  intro r hr
  simp only [validateObjects] at hr
  split at hr
  · have hr' := List.mem_singleton.1 hr
    subst hr'
    decide
  · have hkeep : keepRecord r s (toLowerL d.data) = true := (List.mem_filter.1 hr).2
    simp only [keepRecord] at hkeep
    split_ifs at hkeep with h1 h2 h3
    push_neg at h1
    exact h1 hs

/-- Record used in the C5/C6 witnesses: an outdoor-category record that the
indoor filter must drop. -/
def powerRec : ObjRecord :=
  ⟨"Power Infrastructure", "1 Transformer", "large grey transformer", "Center", "—"⟩

/-- C5 witness: the theorem applied to the concrete run in which the single
`"Power Infrastructure"` record is dropped and the fallback is returned. -/
theorem C5_indoor_excludes_outdoor_witness :
    ("indoor_office" ∈ indoor_scenes) ∧
      (fallbackRecord ∈ validateObjects [powerRec] "indoor_office" "an office with chairs") ∧
      fallbackRecord.category ∉ outdoor_objects :=
  ⟨by decide, by decide,
    C5_indoor_excludes_outdoor [powerRec] "indoor_office" "an office with chairs"
      (by decide) fallbackRecord (by decide)⟩

/-- C6: `_validate_objects` never returns an empty list; and when every input
record is dropped by the filter it returns exactly the one fallback record,
whose category is `"General"` and whose object is `"Scene Analysis"`. -/
theorem C6_never_empty (l : List ObjRecord) (s d : String) :
    validateObjects l s d ≠ [] ∧
      ((l.filter fun obj => keepRecord obj s (toLowerL d.data)) = [] →
        validateObjects l s d = [fallbackRecord] ∧
          fallbackRecord.category = "General" ∧ fallbackRecord.object = "Scene Analysis") := by
  constructor
  · simp only [validateObjects]
    split_ifs with h
    · simp
    · intro hnil
      exact h (by simp [hnil])
  · intro hfil
    simp only [validateObjects]
    rw [if_pos (by simp [hfil])]
    exact ⟨rfl, rfl, rfl⟩

/-- C6 witness: the theorem applied to a concrete run in which the single
record is dropped, so the fallback is returned. -/
theorem C6_never_empty_witness :
    (([powerRec].filter fun obj => keepRecord obj "indoor_office" (toLowerL "an office".data)) = []) ∧
      (validateObjects [powerRec] "indoor_office" "an office" = [fallbackRecord] ∧
        fallbackRecord.category = "General" ∧ fallbackRecord.object = "Scene Analysis") ∧
      validateObjects [powerRec] "indoor_office" "an office" ≠ [] :=
  ⟨by decide,
    (C6_never_empty [powerRec] "indoor_office" "an office").2 (by decide),
    (C6_never_empty [powerRec] "indoor_office" "an office").1⟩

/-- C10: a record whose object name has no significant word (no word longer
than 3 characters after the `"1 "`/`"2 "`/`"3 "` count prefixes are removed)
skips the grounding check entirely: if the indoor category rule and the indoor
keyword rule do not drop it, it is kept by `_validate_objects` no matter what
the image description says. -/
theorem C10_short_words_skip_grounding (l : List ObjRecord) (s d : String) (r : ObjRecord)
    (hmem : r ∈ l)
    (hw : groundingWords (toLowerL r.object.data) = [])
    (hcat : ¬(s ∈ indoor_scenes ∧ r.category ∈ outdoor_objects))
    (hkw : ¬(s ∈ indoor_scenes ∧ outdoorKeywordHit r = true)) :
    r ∈ validateObjects l s d := by
  have hkeep : keepRecord r s (toLowerL d.data) = true := by
    simp only [keepRecord]
    rw [if_neg hcat, if_neg hkw, hw]
    simp
  have hin : r ∈ l.filter fun obj => keepRecord obj s (toLowerL d.data) :=
    List.mem_filter.2 ⟨hmem, hkeep⟩
  simp only [validateObjects]
  split_ifs with h
  · rw [List.isEmpty_iff] at h
    rw [h] at hin
    exact absurd hin (List.not_mem_nil r)
  · exact hin

/-- Record used in the C10 witness: object name `"1 TV"` — after removing the
count prefix only the 2-letter word `"tv"` remains, so the grounding check is
skipped even though `"tv"` never occurs in the description. -/
def tvRec : ObjRecord := ⟨"Electronics", "1 TV", "wall mounted", "Left wall", "—"⟩

/-- C10 witness: the theorem applied to the concrete record `tvRec` inside an
`"indoor_office"` scene whose description never mentions a TV. -/
theorem C10_short_words_skip_grounding_witness :
    (tvRec ∈ [tvRec]) ∧
      groundingWords (toLowerL tvRec.object.data) = [] ∧
      ¬("indoor_office" ∈ indoor_scenes ∧ tvRec.category ∈ outdoor_objects) ∧
      ¬("indoor_office" ∈ indoor_scenes ∧ outdoorKeywordHit tvRec = true) ∧
      tvRec ∈ validateObjects [tvRec] "indoor_office" "an empty room" :=
  ⟨by decide, by decide, by decide, by decide,
    C10_short_words_skip_grounding [tvRec] "indoor_office" "an empty room" tvRec
      (by decide) (by decide) (by decide) (by decide)⟩

/-! `SceneAnalyzer._validate_and_enhance_data` (`scene_analyzer.py`,
lines 29-101).  Its records are Python dicts with optional keys, so they are
embedded as association lists (`RawItem`); `item.get(k, d)` is a lookup with
default.  The five `re.search` count patterns are embedded as explicit
character-list matchers that return the digit group of the leftmost match. -/

/-- A raw/enhanced record of `_validate_and_enhance_data`: a Python dict from
string keys to string values. -/
abbrev RawItem := List (String × String)

/-- First-match key lookup in a dict. -/
def lookupKey (k : String) : RawItem → Option String
  | [] => none
  | (k', v) :: t => if k' = k then some v else lookupKey k t

/-- Python `item.get(k, d)`. -/
def getField (item : RawItem) (k d : String) : String := (lookupKey k item).getD d

/-- Longest digit run at the head of the list, and the remainder. -/
def spanDigits : List Char → List Char × List Char
  | [] => ([], [])
  | c :: t =>
      if c.isDigit then
        let p := spanDigits t
        (c :: p.1, p.2)
      else ([], c :: t)

/-- Pattern `^(\d+)\s+` (`scene_analyzer.py`, line 59): leading digits followed
by whitespace; returns the digit group. -/
def matchLeadingCountWS (l : List Char) : Option (List Char) :=
  let p := spanDigits l
  if p.1 = [] then none
  else
    match p.2 with
    | c :: _ => if c.isWhitespace then some p.1 else none
    | [] => none

/-- Pattern `^(\d+)x\s+` (`scene_analyzer.py`, line 60). -/
def matchLeadingCountX (l : List Char) : Option (List Char) :=
  let p := spanDigits l
  if p.1 = [] then none
  else
    match p.2 with
    | c :: rest =>
        if c = 'x' then
          match rest with
          | c2 :: _ => if c2.isWhitespace then some p.1 else none
          | [] => none
        else none
    | [] => none

/-- Pattern `\((\d+)\)` (`scene_analyzer.py`, line 61), leftmost occurrence. -/
def matchParen : List Char → Option (List Char)
  | [] => none
  | c :: t =>
      if c = '(' then
        let p := spanDigits t
        if p.1 = [] then matchParen t
        else
          match p.2 with
          | c2 :: _ => if c2 = ')' then some p.1 else matchParen t
          | [] => matchParen t
      else matchParen t

/-- Pattern `:\s*(\d+)` (`scene_analyzer.py`, line 62), leftmost occurrence. -/
def matchColonCount : List Char → Option (List Char)
  | [] => none
  | c :: t =>
      if c = ':' then
        let p := spanDigits (t.dropWhile Char.isWhitespace)
        if p.1 = [] then matchColonCount t else some p.1
      else matchColonCount t

/-- Pattern `^\s*(\d+)$` (`scene_analyzer.py`, line 63): the whole string is
optional whitespace followed by digits. -/
def matchBareInt (l : List Char) : Option (List Char) :=
  let p := spanDigits (l.dropWhile Char.isWhitespace)
  if p.1 = [] ∨ p.2 ≠ [] then none else some p.1

/-- `has_count` (`scene_analyzer.py`, lines 66-70): some count pattern occurs
in the details string. -/
def hasCountPattern (details : List Char) : Bool :=
  (matchLeadingCountWS details).isSome || (matchLeadingCountX details).isSome ||
    (matchParen details).isSome || (matchColonCount details).isSome ||
    (matchBareInt details).isSome

/-- The count-extraction loop over the identifier (`scene_analyzer.py`,
lines 75-83): the patterns are tried in order, and the digit group of the
first one that matches is returned. -/
def extractCount (identifier : List Char) : Option (List Char) :=
  (matchLeadingCountWS identifier).orElse fun _ =>
    (matchLeadingCountX identifier).orElse fun _ =>
      (matchParen identifier).orElse fun _ =>
        (matchColonCount identifier).orElse fun _ => matchBareInt identifier

/-- `any(word in details.lower() for word in ["multiple", "several",
"various", "many"])` (`scene_analyzer.py`, line 91). -/
def quantityWordIn (details_lower : List Char) : Bool :=
  ["multiple", "several", "various", "many"].any fun w => hasSub w.data details_lower

/-- The plural-indicator loop (`scene_analyzer.py`, lines 87-90): some
indicator from `["s ", "s,", "es ", "es,", "ies ", "ies,"]` is a substring of
the lowercased identifier, or the identifier ends with the indicator stripped
of commas (`"s "`, `"s"`, `"es "`, `"es"`, `"ies "`, `"ies"` respectively). -/
def pluralMatch (identifier_lower : List Char) : Bool :=
  [("s ", "s "), ("s,", "s"), ("es ", "es "), ("es,", "es"),
    ("ies ", "ies "), ("ies,", "ies")].any
    fun p => hasSub p.1.data identifier_lower || endsWithL p.2.data identifier_lower

/-- Identifiers exempt from count inference (`scene_analyzer.py`, line 73). -/
def countable_exclusions : List (List Char) :=
  ["temperature".data, "people".data, "area".data, "height".data]

/-- Identifiers exempt from the `"1 unit"` default (`scene_analyzer.py`, line 96). -/
def empty_details_exclusions : List (List Char) :=
  ["temperature".data, "area".data, "height".data]

/-- One iteration of the enhancement loop (`scene_analyzer.py`, lines 47-99):
default the three fields, infer a count from the identifier when the details
carry none, apply the plural "Multiple" heuristic, and default empty details
to `"1 unit"`.  The produced dict has exactly the keys `identifier`,
`details`, `estimated_cost`. -/
def enhanceItem (item : RawItem) : RawItem :=
  let identifier := getField item "identifier" "Unknown"
  let d0 := (getField item "details" "").data
  let cost := getField item "estimated_cost" "—"
  let idLower := toLowerL identifier.data
  let d1 :=
    if ¬(hasCountPattern d0 = true) ∧ idLower ∉ countable_exclusions then
      match extractCount identifier.data with
      | some count =>
          if d0 ≠ [] ∧ ¬(isSubAt count d0 = true) then count ++ ' ' :: d0 else d0
      | none =>
          if d0 ≠ [] ∧ pluralMatch idLower = true ∧ ¬(quantityWordIn (toLowerL d0) = true) then
            "Multiple ".data ++ toLowerL d0
          else d0
    else d0
  let d2 := if d1 = [] ∧ idLower ∉ empty_details_exclusions then "1 unit".data else d1
  [("identifier", identifier), ("details", String.mk d2), ("estimated_cost", cost)]

/-- `SceneAnalyzer._validate_and_enhance_data` (`scene_analyzer.py`,
lines 29-101): an empty input yields the single `"Scene Contents"`
placeholder; otherwise each record is enhanced in order. -/
def validateAndEnhanceData (simplified_data : List RawItem) : List RawItem :=
  if simplified_data.isEmpty then
    [[("identifier", "Scene Contents"),
      ("details", "No specific items detected - manual entry required"),
      ("estimated_cost", "—")]]
  else simplified_data.map enhanceItem

/-- C7 counterexample: the placeholder returned for an empty input has no
`object` key and no `category` key (its keys are `identifier`, `details`,
`estimated_cost`), and its details use an ASCII hyphen, not the em dash the
claim quotes — so the claim's record shape does not match the code. -/
theorem C7_counterexample :
    lookupKey "object" ((validateAndEnhanceData []).getD 0 []) = none ∧
      lookupKey "category" ((validateAndEnhanceData []).getD 0 []) = none ∧
      lookupKey "details" ((validateAndEnhanceData []).getD 0 []) ≠
        some "No specific items detected — manual entry required" := by
  decide

/-- C7 (amended): reconciling an empty raw record list returns exactly one
placeholder dict, with `identifier` (not `object`) equal to
`"Scene Contents"`, `details` equal to
`"No specific items detected - manual entry required"` (ASCII hyphen), and
`estimated_cost` `"—"`; no `category` or `position` key exists. -/
theorem C7_empty_reconcile :
    validateAndEnhanceData [] =
      [[("identifier", "Scene Contents"),
        ("details", "No specific items detected - manual entry required"),
        ("estimated_cost", "—")]] := by
  decide

/-- The legacy-shape record of end-to-end scenario 3. -/
def chairsRaw : RawItem := [("identifier", "Chairs"), ("details", "wooden, brown")]

/-- C8 counterexample: the reconciled `Chairs` record has no `category` key
(the claim says `category = "Unknown"`) and no `object` key (the claim says
`object = "Chairs"`); the code keeps the `identifier` key and adds no new
fields. -/
theorem C8_counterexample :
    lookupKey "category" ((validateAndEnhanceData [chairsRaw]).getD 0 []) = none ∧
      lookupKey "object" ((validateAndEnhanceData [chairsRaw]).getD 0 []) = none := by
  decide

/-- C8 (amended): the legacy record `{identifier:"Chairs", details:"wooden,
brown"}` reconciles to `{identifier:"Chairs", details:"Multiple wooden,
brown", estimated_cost:"—"}` — the plural heuristic fires (the identifier ends
in `"s"` and the details contain no quantity word) and prefixes `"Multiple "`
to the lowercased details. -/
theorem C8_plural_heuristic :
    validateAndEnhanceData [chairsRaw] =
      [[("identifier", "Chairs"),
        ("details", "Multiple wooden, brown"),
        ("estimated_cost", "—")]] := by
  decide
